import Mathlib

/-!
Shallow embedding of the concurrent crawl engine in `src/crab/crawling.go`
(package `main`): the robots policy gate `isURLAllowedByRobotsTXT`, the
fetch worker `crawlURL`, the scheduler `threadedCrawl`, and the sitemap
aggregator `createSiteMap`.

External effects (Go's `net/url`, `net/http`, the `temoto/robotstxt`
engine, and the `gocolly/colly` collector) are modelled by an explicit
environment `CrawlEnv` of response functions; the control flow of the
repository's own functions is translated line by line from the source.

The colly collector dispatch order is part of the modelled semantics and
follows the documented collector lifecycle of gocolly/colly v1:
a completed HTTP transaction first runs `handleOnError` (which, with
`ParseHTTPErrorResponse` unset as in this repository, turns any response
with status code >= 203 into an error: `OnError` callbacks fire and
nothing else does), then `OnResponse` callbacks, then `OnHTML` callbacks
(once per matching element), and `Visit` returns only after all of them.
-/

namespace Crab

/-- Model of Go `time.Time` (field `Created` of `URLData`): an opaque tick,
never inspected by the crawl engine. -/
structure GoTime where
  tick : Nat
deriving DecidableEq, Repr

/-- Translation of the struct `URLData` (crawling.go lines 18-22): the URL
to be crawled, a creation timestamp, and the discovered outbound links. -/
structure URLData where
  URL : String
  Created : GoTime
  Links : List String
deriving DecidableEq, Repr

/-- Translation of `colly.LimitRule` as used at crawling.go lines 155-159:
a domain glob with a fixed delay and a random-jitter upper bound, both in
nanoseconds (Go `time.Duration`). -/
structure LimitRule where
  DomainGlob : String
  Delay : Int
  RandomDelay : Int
deriving DecidableEq, Repr

/-- Model of a `colly.Collector` restricted to the configuration this
repository applies to one: the user-agent chosen at construction and the
limit rules registered with `c.Limit`. -/
structure Collector where
  userAgent : String
  limits : List LimitRule
deriving DecidableEq, Repr

/-- Outcome of fetching and parsing `http://<host>/robots.txt`
(crawling.go lines 135-145): the `http.Get` fails, or the body fails to
parse with `robotstxt.FromResponse`, or a parsed robots group is obtained,
modelled by its `TestAgent (path) (agent)` predicate. -/
inductive RobotsFetch where
  | getError
  | parseError
  | ok (testAgent : String → String → Bool)

/-- Outcome of the page fetch performed by `c.Visit` (crawling.go line
102): a transport failure (no HTTP response), or a response with a status
code and the href attributes of the anchor elements of the body, in
document order. -/
inductive FetchOutcome where
  | failure
  | response (status : Nat) (anchors : List String)

/-- Environment of the external world: results of `url.Parse` (the parsed
`Host` component, or `none` on a parse error), of the robots.txt fetch
keyed by the robots URL string, of colly's `Request.AbsoluteURL`
resolution (page URL, href), and of the page fetch keyed by the page URL. -/
structure CrawlEnv where
  parseHost : String → Option String
  robots : String → RobotsFetch
  absoluteURL : String → String → String
  fetch : String → FetchOutcome

/-- Translation of `isURLAllowedByRobotsTXT` (crawling.go lines 125-148):
parse the URL (parse failure returns false); build
`http://<host>/robots.txt`; a failed GET or a failed robots parse returns
true; otherwise return `data.TestAgent(urlStr, "GoEngine")` — note the
first argument is the whole original `urlStr`, not the parsed path. -/
def isURLAllowedByRobotsTXT (env : CrawlEnv) (urlStr : String) : Bool :=
  match env.parseHost urlStr with
  | none => false
  | some domain =>
    let robotsURL := ("http://") ++ domain ++ ("/robots.txt")
    match env.robots robotsURL with
    | .getError => true
    | .parseError => true
    | .ok testAgent => testAgent urlStr ("GoEngine")

/-- Translation of the collector construction inside `crawlURL`
(crawling.go lines 63-65): `colly.NewCollector(colly.UserAgent(...))` with
no other options — in particular no limit rule is ever registered on it.
This is the collector whose `Visit` at line 102 performs the page fetch. -/
def crawlURLCollector (ua : String) : Collector :=
  { userAgent := ua, limits := [] }

/-- Translation of the rate limit rule built in `threadedCrawl`
(crawling.go lines 155-159): domain glob `*`, 5 seconds fixed delay,
up to 5 seconds of random delay. -/
def rateLimitRule : LimitRule :=
  { DomainGlob := ("*"), Delay := 5 * 1000000000, RandomDelay := 5 * 1000000000 }

/-- Translation of the collector built inside the per-task goroutine of
`threadedCrawl` (crawling.go lines 165-169): a fresh collector on which
`c.Limit(rateLimitRule)` is called. The goroutine then calls
`crawlURL(u, ch, &wg)` without passing this collector, so it is never used
for any fetch. -/
def goroutineCollector (ua : String) : Collector :=
  { userAgent := ua, limits := [rateLimitRule] }

/-- Translation of `crawlURL` (crawling.go lines 61-105), returning the
ordered sequence of values the worker sends on the results channel `ch`.

Control flow from the source, under the colly dispatch semantics stated in
the file header: if the robots gate denies the URL, return with no sends
(lines 67-70). Otherwise `c.Visit` runs the fetch: on a transport failure
or a response with status >= 203 only `OnError` fires (line 73, no send);
on a response with status < 203 the `OnResponse` callback fires first
(lines 90-99), sending the current value of `urlData` when the status is
exactly 200, and then the `OnHTML` callbacks fire (lines 77-87), appending
`e.Request.AbsoluteURL(e.Attr("href"))` to `urlData.Links` once per
anchor. After `Visit` returns, line 104 unconditionally sends `urlData`
(now carrying the appended links). -/
def crawlURL (env : CrawlEnv) (urlData : URLData) : List URLData :=
  if !(isURLAllowedByRobotsTXT env urlData.URL) then
    []
  else
    match env.fetch urlData.URL with
    | .failure => [urlData]
    | .response status anchors =>
      if status ≥ 203 then
        [urlData]
      else
        let onResponseSends := if status = 200 then [urlData] else []
        let finalData :=
          { urlData with Links := urlData.Links ++ anchors.map (env.absoluteURL urlData.URL) }
        onResponseSends ++ [finalData]

/-- Body of the scheduling loop of `threadedCrawl` (crawling.go lines
162-178): one worker is launched per task seen, and at the end of each
iteration the loop breaks when `len(urls) >= concurrentCrawlers`. The
first argument is `len(urls)`, the length of the WHOLE task list, which
never changes during the loop; `cap` is `concurrentCrawlers` (a Go int). -/
def scheduleLoop (allLen : Int) (cap : Int) : List URLData → List URLData
  | [] => []
  | u :: rest => u :: (if allLen ≥ cap then [] else scheduleLoop allLen cap rest)

/-- Tasks for which `threadedCrawl` launches a worker goroutine, in launch
order (crawling.go lines 162-178). -/
def scheduledTasks (urls : List URLData) (concurrentCrawlers : Int) : List URLData :=
  scheduleLoop (urls.length : Int) concurrentCrawlers urls

/-- Number of worker goroutines `threadedCrawl` launches. -/
def launchedWorkers (urls : List URLData) (concurrentCrawlers : Int) : Nat :=
  (scheduledTasks urls concurrentCrawlers).length

/-- Go map assignment `m[k] = v` on a map modelled as an association list
with unique keys: overwrite the binding of `k` when present, otherwise add
a new one. -/
def mapInsert (m : List (String × List String)) (k : String) (v : List String) :
    List (String × List String) :=
  match m with
  | [] => [(k, v)]
  | (k₁, v₁) :: rest => if k₁ = k then (k, v) :: rest else (k₁, v₁) :: mapInsert rest k v

/-- Go map lookup `m[k]`. -/
def mapLookup (m : List (String × List String)) (k : String) : Option (List String) :=
  match m with
  | [] => none
  | (k₁, v₁) :: rest => if k₁ = k then some v₁ else mapLookup rest k

/-- Sitemap built by the loop of `createSiteMap` (crawling.go lines
108-111): `siteMap[u.URL] = u.Links` for each drained result in order, so
a later entry for the same URL overwrites an earlier one. -/
def buildSiteMap (urls : List URLData) : List (String × List String) :=
  urls.foldl (fun m u => mapInsert m u.URL u.Links) []

/-- Result of `json.Marshal` on the sitemap (an error, or the encoded
bytes) and of `ioutil.WriteFile("siteMap.json", jsonData, 0644)` (`none`
for a nil error, `some msg` for a failure), supplied by the environment. -/
structure PersistEnv where
  marshal : List (String × List String) → Except String String
  writeFile : String → String → Option String

/-- Translation of `createSiteMap` (crawling.go lines 107-122), returning
the Go error value (`none` = nil). Line 113 binds `jsonData, err :=
json.Marshal(siteMap)` and line 114 immediately reassigns `err =
ioutil.WriteFile(...)` without checking the marshal error, so only the
write error ever reaches the `if err != nil` check; on a marshal failure
`jsonData` is nil and an empty payload is written. -/
def createSiteMap (penv : PersistEnv) (urls : List URLData) : Option String :=
  let siteMap := buildSiteMap urls
  let jsonData := match penv.marshal siteMap with
    | .ok s => s
    | .error _ => ("")
  match penv.writeFile ("siteMap.json") jsonData with
  | some e => some e
  | none => none

/-- Drained results channel of `threadedCrawl` (crawling.go lines
181-190) in one admissible arrival order: the workers' send sequences
concatenated in launch order. Arrival order across workers is scheduler
nondeterminism; per-worker send order is always preserved (see
`Interleave3` for the general three-worker case). -/
def threadedCrawlResults (env : CrawlEnv) (urls : List URLData) (concurrentCrawlers : Int) :
    List URLData :=
  (scheduledTasks urls concurrentCrawlers).flatMap (crawlURL env)

/-- Sitemap written at the end of `threadedCrawl` (crawling.go line 191)
under the arrival order of `threadedCrawlResults`. -/
def threadedCrawlSiteMap (env : CrawlEnv) (urls : List URLData) (concurrentCrawlers : Int) :
    List (String × List String) :=
  buildSiteMap (threadedCrawlResults env urls concurrentCrawlers)

/-- Admissible drained sequences of a three-worker run: every interleaving
of the three per-worker send sequences that preserves each worker's own
send order — the possible arrival orders on the shared buffered channel. -/
inductive Interleave3 : List URLData → List URLData → List URLData → List URLData → Prop where
  | done : Interleave3 [] [] [] []
  | fst (x : URLData) {xs ys zs ws : List URLData} :
      Interleave3 xs ys zs ws → Interleave3 (x :: xs) ys zs (x :: ws)
  | snd (y : URLData) {xs ys zs ws : List URLData} :
      Interleave3 xs ys zs ws → Interleave3 xs (y :: ys) zs (y :: ws)
  | thd (z : URLData) {xs ys zs ws : List URLData} :
      Interleave3 xs ys zs ws → Interleave3 xs ys (z :: zs) (z :: ws)

/-! Concrete inputs and environments used to instantiate the theorems:
the three-seed end-to-end scenario of the spec (one robots-denied URL, one
404 URL, one 200 URL with two anchors), an environment where URL parsing
always fails, the environment describing the Go standard library's
behaviour on the string `not a url`, and a persistence environment whose
marshal step fails while its write step succeeds. -/

/-- Seed URL denied by its host's robots.txt in the end-to-end scenario. -/
def urlDenied : String := "http://denied.test/page"

/-- Seed URL answering HTTP 404 in the end-to-end scenario. -/
def urlMissing : String := "http://missing.test/page"

/-- Seed URL answering HTTP 200 with two anchors in the end-to-end
scenario. -/
def urlOk : String := "http://ok.test/page"

/-- First anchor href (already absolute) on the 200 page. -/
def linkA : String := "http://ok.test/a"

/-- Second anchor href (already absolute) on the 200 page. -/
def linkB : String := "http://ok.test/b"

/-- Task for the robots-denied seed. -/
def taskDenied : URLData := { URL := urlDenied, Created := { tick := 0 }, Links := [] }

/-- Task for the 404 seed. -/
def taskMissing : URLData := { URL := urlMissing, Created := { tick := 1 }, Links := [] }

/-- Task for the 200 seed. -/
def taskOk : URLData := { URL := urlOk, Created := { tick := 2 }, Links := [] }

/-- Value of the 200 task at the unconditional final push, carrying the
two discovered links. -/
def taskOkFinal : URLData := { taskOk with Links := [linkA, linkB] }

/-- Seed list of the end-to-end scenario. -/
def scenarioSeeds : List URLData := [taskDenied, taskMissing, taskOk]

/-- Environment of the end-to-end scenario: each seed parses to its host;
the denied host serves a robots.txt whose agent test rejects everything,
the other hosts have no reachable robots.txt (fail-open); the 404 seed
answers status 404 with no anchors and the 200 seed answers status 200
with two absolute anchors (absolute-URL resolution is the identity on
them). -/
def scenarioEnv : CrawlEnv where
  parseHost := fun s =>
    if s = urlDenied then some ("denied.test")
    else if s = urlMissing then some ("missing.test")
    else if s = urlOk then some ("ok.test")
    else none
  robots := fun r =>
    if r = ("http://denied.test/robots.txt") then .ok (fun _ _ => false)
    else .getError
  absoluteURL := fun _ href => href
  fetch := fun s =>
    if s = urlMissing then .response 404 []
    else if s = urlOk then .response 200 [linkA, linkB]
    else .failure

/-- Environment in which `url.Parse` fails on every input. -/
def parseFailEnv : CrawlEnv where
  parseHost := fun _ => none
  robots := fun _ => .getError
  absoluteURL := fun _ href => href
  fetch := fun _ => .failure

/-- Modelled Go standard-library behaviour on the input `not a url`:
`url.Parse` does NOT fail on it — a string without a scheme separator
parses as an opaque path-only URL with an empty `Host` — so `parseHost`
yields `some ""`, and the subsequent `http.Get("http:///robots.txt")`
fails (`http: no Host in request URL`), so the robots fetch is a
`getError` for every robots URL derived from an empty host. -/
def notAUrlEnv : CrawlEnv where
  parseHost := fun s => if s = ("not a url") then some ("") else none
  robots := fun _ => .getError
  absoluteURL := fun _ href => href
  fetch := fun _ => .failure

/-- Persistence environment whose `json.Marshal` step fails and whose
`ioutil.WriteFile` step succeeds (returns a nil error). -/
def marshalFailWriteOkEnv : PersistEnv where
  marshal := fun _ => .error ("marshal failure")
  writeFile := fun _ _ => none

/-- Persistence environment whose marshal step succeeds and whose write
step fails. -/
def writeFailEnv : PersistEnv where
  marshal := fun _ => .ok ("jsonbytes")
  writeFile := fun _ _ => some ("disk full")

/-- Two-element task list used against the scheduling-cap claim. -/
def twoTasks : List URLData :=
  [ { URL := ("http://a.test/"), Created := { tick := 0 }, Links := [] },
    { URL := ("http://b.test/"), Created := { tick := 1 }, Links := [] } ]

/-! Helper lemmas shared by the claim theorems. -/

/-- While the full list length stays below the cap, the scheduling loop
launches a worker for every task it walks over. -/
theorem scheduleLoop_length_of_lt {allLen cap : Int} (h : allLen < cap) :
    ∀ l : List URLData, (scheduleLoop allLen cap l).length = l.length := by
  intro l
  induction l with
  | nil => rfl
  | cons u rest ih =>
    simp only [scheduleLoop, List.length_cons]
    rw [if_neg (not_le.mpr h)]
    simp [ih]

/-- Worker send sequences in the scenario: the denied task sends nothing. -/
theorem crawlURL_scenario_denied : crawlURL scenarioEnv taskDenied = [] := by decide

/-- Worker send sequences in the scenario: the 404 task sends exactly its
unconditional final push, with no links. -/
theorem crawlURL_scenario_missing : crawlURL scenarioEnv taskMissing = [taskMissing] := by
  decide

/-- Worker send sequences in the scenario: the 200 task sends the
response-callback push (no links yet) and then the final push carrying the
two discovered links. -/
theorem crawlURL_scenario_ok : crawlURL scenarioEnv taskOk = [taskOk, taskOkFinal] := by
  decide

/-- Every interleaving of the send sequences `[]`, `[m]` and `[o₁, o₂]`
is one of the three placements of `m` around `o₁, o₂`. -/
theorem interleave3_enum {m o₁ o₂ : URLData} {ws : List URLData}
    (h : Interleave3 [] [m] [o₁, o₂] ws) :
    ws = [m, o₁, o₂] ∨ ws = [o₁, m, o₂] ∨ ws = [o₁, o₂, m] := by
  cases h with
  | snd y h₁ =>
    cases h₁ with
    | thd z h₂ =>
      cases h₂ with
      | thd w h₃ =>
        cases h₃ with
        | done => left; rfl
  | thd z h₁ =>
    cases h₁ with
    | snd y h₂ =>
      cases h₂ with
      | thd w h₃ =>
        cases h₃ with
        | done => right; left; rfl
    | thd w h₂ =>
      cases h₂ with
      | snd y h₃ =>
        cases h₃ with
        | done => right; right; rfl

/-! Claim theorems. -/

/-- Claim C1, counterexample: with a task list of length 2 and cap 2 we
have L ≤ C, yet `threadedCrawl` launches only one worker, not all L — the
loop breaks at the end of the first iteration because its condition
compares the full list length, not the number of tasks already launched,
against the cap. -/
theorem claimC1_counterexample :
    ((twoTasks.length : Int) ≤ 2) ∧ launchedWorkers twoTasks 2 ≠ twoTasks.length := by
  decide

/-- Claim C1, amended: `threadedCrawl` launches no worker for an empty
task list, exactly one worker whenever the list length is ≥ the cap
(the break condition `len(urls) >= concurrentCrawlers` is constant during
the loop, so it fires at the end of the first iteration), and one worker
per task — all of them — when the list length is < the cap. -/
theorem claimC1_scheduling_cap (urls : List URLData) (cap : Int) :
    launchedWorkers urls cap =
      if urls.isEmpty then 0
      else if cap ≤ (urls.length : Int) then 1 else urls.length := by
  cases urls with
  | nil => rfl
  | cons u rest =>
    by_cases h : cap ≤ ((rest.length : Int) + 1)
    · simp [launchedWorkers, scheduledTasks, scheduleLoop, h, ge_iff_le]
    · have h2 := scheduleLoop_length_of_lt (not_le.mp h) rest
      simp [launchedWorkers, scheduledTasks, scheduleLoop, h, ge_iff_le, h2]

/-- Claim C2: for an allowed task, a fetch completing with an HTTP 200
response makes `crawlURL` send the task exactly twice on the results
channel (once in the 200-status response callback, once unconditionally
after the fetch), while a transport failure or a non-200 status makes it
send exactly once (only the unconditional final push). -/
theorem claimC2_result_push_counts (env : CrawlEnv) (t : URLData)
    (hallow : isURLAllowedByRobotsTXT env t.URL = true) :
    (∀ anchors, env.fetch t.URL = .response 200 anchors → (crawlURL env t).length = 2) ∧
    (env.fetch t.URL = .failure → (crawlURL env t).length = 1) ∧
    (∀ status anchors, status ≠ 200 → env.fetch t.URL = .response status anchors →
      (crawlURL env t).length = 1) := by
  refine ⟨fun anchors hf => ?_, fun hf => ?_, fun status anchors hs hf => ?_⟩
  · simp [crawlURL, hallow, hf]
  · simp [crawlURL, hallow, hf]
  · by_cases h203 : status ≥ 203
    · simp [crawlURL, hallow, hf, h203]
    · simp [crawlURL, hallow, hf, h203, hs]

/-- Witness for claim C2: in the concrete scenario the allowed 200 task
is sent exactly twice. -/
theorem claimC2_witness : (crawlURL scenarioEnv taskOk).length = 2 :=
  (claimC2_result_push_counts scenarioEnv taskOk (by decide)).1 [linkA, linkB] rfl

/-- Claim C4: for a URL that parses, an unreachable robots.txt endpoint
(failed GET) or an unparseable robots.txt document makes
`isURLAllowedByRobotsTXT` return true — fail-open. -/
theorem claimC4_fail_open (env : CrawlEnv) (urlStr domain : String)
    (hparse : env.parseHost urlStr = some domain)
    (hrob : env.robots (("http://") ++ domain ++ ("/robots.txt")) = .getError ∨
            env.robots (("http://") ++ domain ++ ("/robots.txt")) = .parseError) :
    isURLAllowedByRobotsTXT env urlStr = true := by
  rcases hrob with h | h <;> simp [isURLAllowedByRobotsTXT, hparse, h]

/-- Witness for claim C4: the scenario's 200 host has an unreachable
robots.txt and its URL is allowed. -/
theorem claimC4_witness : isURLAllowedByRobotsTXT scenarioEnv urlOk = true :=
  claimC4_fail_open scenarioEnv urlOk ("ok.test") rfl (Or.inl rfl)

/-- Claim C5, counterexample: on the input `not a url` Go's `url.Parse`
succeeds (empty host), the robots GET for the empty host fails, and
`isURLAllowedByRobotsTXT` fails open — it returns true, not false as
claimed. -/
theorem claimC5_counterexample :
    isURLAllowedByRobotsTXT notAUrlEnv ("not a url") = true := by decide

/-- Claim C5, amended: every input string on which URL parsing fails
yields false (fail-closed); but the specific input `not a url` is
accepted by Go's URL parser with an empty host, so it takes the
robots-fetch path, whose GET fails, and returns true (fail-open). -/
theorem claimC5_parse_failure_denies :
    (∀ (env : CrawlEnv) (s : String), env.parseHost s = none →
      isURLAllowedByRobotsTXT env s = false) ∧
    isURLAllowedByRobotsTXT notAUrlEnv ("not a url") = true := by
  constructor
  · intro env s h
    simp [isURLAllowedByRobotsTXT, h]
  · decide

/-- Witness for claim C5: in an environment where parsing fails for every
input, the gate denies. -/
theorem claimC5_witness : isURLAllowedByRobotsTXT parseFailEnv ("x") = false :=
  claimC5_parse_failure_denies.1 parseFailEnv ("x") rfl

/-- Claim C6: a task denied by the robots gate contributes zero sends to
the results channel, and every allowed task contributes at least one send
(the unconditional final push). -/
theorem claimC6_denied_silent (env : CrawlEnv) (t : URLData) :
    (isURLAllowedByRobotsTXT env t.URL = false → crawlURL env t = []) ∧
    (isURLAllowedByRobotsTXT env t.URL = true → 1 ≤ (crawlURL env t).length) := by
  constructor
  · intro h
    simp [crawlURL, h]
  · intro h
    cases hf : env.fetch t.URL with
    | failure => simp [crawlURL, h, hf]
    | response status anchors =>
      by_cases h203 : status ≥ 203
      · simp [crawlURL, h, hf, h203]
      · by_cases hs : status = 200 <;> simp [crawlURL, h, hf, h203, hs]

/-- Witness for claim C6: the scenario's robots-denied task sends
nothing. -/
theorem claimC6_witness : crawlURL scenarioEnv taskDenied = [] :=
  (claimC6_denied_silent scenarioEnv taskDenied).1 (by decide)

/-- Claim C3, counterexample: in the three-seed scenario the sitemap does
NOT contain exactly one key — the 404 URL also appears as a key (bound to
its empty link list, coming from the worker's unconditional final push),
so the written map has two keys. -/
theorem claimC3_counterexample :
    mapLookup (threadedCrawlSiteMap scenarioEnv scenarioSeeds 10) urlMissing = some [] ∧
    (threadedCrawlSiteMap scenarioEnv scenarioSeeds 10).length = 2 := by
  decide

/-- Claim C3, amended: for every admissible arrival order of the three
workers' sends, the sitemap contains exactly two keys — the 200 URL mapped
to the two discovered links and the 404 URL mapped to an empty list — and
the robots-denied URL is absent. -/
theorem claimC3_amended (results : List URLData)
    (h : Interleave3 (crawlURL scenarioEnv taskDenied) (crawlURL scenarioEnv taskMissing)
          (crawlURL scenarioEnv taskOk) results) :
    mapLookup (buildSiteMap results) urlOk = some [linkA, linkB] ∧
    mapLookup (buildSiteMap results) urlMissing = some [] ∧
    mapLookup (buildSiteMap results) urlDenied = none ∧
    (buildSiteMap results).length = 2 := by
  rw [crawlURL_scenario_denied, crawlURL_scenario_missing, crawlURL_scenario_ok] at h
  rcases interleave3_enum h with rfl | rfl | rfl <;> decide

/-- Witness for claim C3: the amended statement at the sequential arrival
order. -/
theorem claimC3_witness :
    mapLookup (buildSiteMap [taskMissing, taskOk, taskOkFinal]) urlOk = some [linkA, linkB] ∧
    mapLookup (buildSiteMap [taskMissing, taskOk, taskOkFinal]) urlMissing = some [] ∧
    mapLookup (buildSiteMap [taskMissing, taskOk, taskOkFinal]) urlDenied = none ∧
    (buildSiteMap [taskMissing, taskOk, taskOkFinal]).length = 2 :=
  claimC3_amended [taskMissing, taskOk, taskOkFinal]
    (by rw [crawlURL_scenario_denied, crawlURL_scenario_missing, crawlURL_scenario_ok]
        exact .snd taskMissing (.thd taskOk (.thd taskOkFinal .done)))

/-- Claim C7: the limit rule `{glob *, delay 5s, jitter 5s}` is NOT
configured on the collector that performs the page fetches — `crawlURL`
builds its own fresh collector with no limit rules; the rule is only ever
registered on the collector built inside the scheduler's goroutine, which
is discarded without being used for any request. -/
theorem claimC7_rate_limit_unused (ua₁ ua₂ : String) :
    (crawlURLCollector ua₁).limits = [] ∧
    rateLimitRule ∉ (crawlURLCollector ua₁).limits ∧
    rateLimitRule ∈ (goroutineCollector ua₂).limits := by
  refine ⟨rfl, ?_, ?_⟩
  · simp [crawlURLCollector]
  · simp [goroutineCollector]

/-- Claim C8: `createSiteMap` drops the `json.Marshal` error — line 114
reassigns `err` with the `WriteFile` result before the marshal error is
ever checked. In an environment where marshaling fails but the write
succeeds it returns nil; only a write failure is returned to the caller. -/
theorem claimC8_marshal_error_dropped :
    marshalFailWriteOkEnv.marshal (buildSiteMap [taskOk]) = .error ("marshal failure") ∧
    createSiteMap marshalFailWriteOkEnv [taskOk] = none ∧
    createSiteMap writeFailEnv [taskOk] = some ("disk full") :=
  ⟨rfl, rfl, rfl⟩

/-- Claim C9, counterexample: for the allowed 200 task with two anchors,
the value sent by the 200-status response callback (the first send)
carries no links at all, while the page discovered two — colly runs
`OnResponse` before `OnHTML`, so link discovery has not happened yet at
the time of the response-callback push. -/
theorem claimC9_counterexample :
    (crawlURL scenarioEnv taskOk).map URLData.Links = [[], [linkA, linkB]] ∧
    ([] : List String) ≠ [linkA, linkB] := by
  decide

/-- Claim C9, amended: for an allowed task whose fetch completes with
HTTP 200, the response-callback push sends the task exactly as it was
before link discovery (colly dispatches `OnResponse` before `OnHTML`), and
the unconditional final push — after all link-discovery callbacks have
fired — carries every link discovered from the page. -/
theorem claimC9_amended (env : CrawlEnv) (t : URLData) (anchors : List String)
    (hallow : isURLAllowedByRobotsTXT env t.URL = true)
    (hf : env.fetch t.URL = .response 200 anchors) :
    crawlURL env t =
      [t, { t with Links := t.Links ++ anchors.map (env.absoluteURL t.URL) }] := by
  simp [crawlURL, hallow, hf]

/-- Witness for claim C9: the amended statement at the scenario's 200
task. -/
theorem claimC9_witness : crawlURL scenarioEnv taskOk = [taskOk, taskOkFinal] :=
  claimC9_amended scenarioEnv taskOk [linkA, linkB] (by decide) rfl

/-- Claim C10: when the robots document parses, the gate's verdict is the
robots engine's agent test applied to the WHOLE original URL string with
agent token `GoEngine` — the full `urlStr`, scheme and host included, is
passed as the path argument, not the parsed path component. -/
theorem claimC10_full_url_passed (env : CrawlEnv) (urlStr domain : String)
    (f : String → String → Bool)
    (hparse : env.parseHost urlStr = some domain)
    (hrob : env.robots (("http://") ++ domain ++ ("/robots.txt")) = .ok f) :
    isURLAllowedByRobotsTXT env urlStr = f urlStr ("GoEngine") := by
  simp [isURLAllowedByRobotsTXT, hparse, hrob]

/-- Witness for claim C10: in the scenario the denied host's agent test
rejects every path, and the gate's verdict on the full URL is exactly that
test's answer. -/
theorem claimC10_witness : isURLAllowedByRobotsTXT scenarioEnv urlDenied = false :=
  claimC10_full_url_passed scenarioEnv urlDenied ("denied.test") (fun _ _ => false) rfl rfl

end Crab
